import Mathlib

/-!
Forum client (`forum/templates/app.js`)

A shallow embedding of the browser-side controller of the forum: the three
globals (`currentUser`, `currentFilter`, `currentFilterValue`), the content of
the page regions the script rewrites, and every handler of the script as a
function on that state.

Conventions of the embedding.

* A JavaScript string value is the sequence of its UTF-16 code units
  (`JsString`): `length` and `substring` count and cut code units.  The data
  of the API and the text of the templates are Lean `String`s, that is well
  formed text (so `encodeURIComponent` never throws); `utf16` gives their code
  units where the script measures or cuts them.
* A function that builds markup returns the parsed form of the text it builds
  (`Node`), and `innerHTML` gives the text back.  Indentation between tags is
  dropped.  In this parsed form interpolated data (titles, bodies, names) is
  carried as text nodes, which is what the browser makes of data that holds no
  markup of its own; what the script does with one piece of data whatever it
  holds is stated on the text the template builds (`postContentMarkup`).
* An `async` function is split at its network request: `f` is the part that
  runs when `f` is called (up to and including the `fetch`), `f_response` is
  the part that runs once the response has arrived.  Requests, alerts,
  reloads and calls of the script's own functions are recorded in `State.log`.
* Instants are integer milliseconds; the quotient in `renderNewBadge` is an
  exact rational.
-/

namespace Forum

/-! ## Strings -/

/-- A JavaScript string value: the sequence of its UTF-16 code units. -/
abbrev JsString := List Nat

/-- The UTF-16 code units of one character: one unit in the basic plane, a
surrogate pair above it. -/
def utf16Char (c : Char) : JsString :=
  if c.toNat < 0x10000 then [c.toNat]
  else [0xD800 + (c.toNat - 0x10000) / 1024, 0xDC00 + (c.toNat - 0x10000) % 1024]

/-- The string value of a text. -/
def utf16 (s : String) : JsString := s.data.flatMap utf16Char

/-- Whether a code unit is the first half of a surrogate pair. -/
def isHighSurrogate (u : Nat) : Bool := decide (0xD800 ≤ u) && decide (u ≤ 0xDBFF)

/-- Whether a code unit is the second half of a surrogate pair. -/
def isLowSurrogate (u : Nat) : Bool := decide (0xDC00 ≤ u) && decide (u ≤ 0xDFFF)

/-- The character a single code unit shows as: U+FFFD for half a surrogate pair. -/
def unitChar (u : Nat) : Char :=
  if isHighSurrogate u || isLowSurrogate u then Char.ofNat 0xFFFD else Char.ofNat u

/-- The characters a string value shows as: a surrogate pair is one character. -/
def displayChars : JsString → List Char
  | [] => []
  | [u] => [unitChar u]
  | u :: v :: rest =>
      if isHighSurrogate u && isLowSurrogate v then
        Char.ofNat (0x10000 + (u - 0xD800) * 1024 + (v - 0xDC00)) :: displayChars rest
      else unitChar u :: displayChars (v :: rest)

/-- The text a string value shows as. -/
def display (s : JsString) : String := ⟨displayChars s⟩

/-- The length `s.length`. -/
def jsLength (s : JsString) : Nat := s.length

/-- The value `s.substring(start, end)` for non-negative integer arguments: both are
clamped to the length and swapped when `start > end`. -/
def substring (s : JsString) (start stop : Nat) : JsString :=
  let a := min start (jsLength s)
  let b := min stop (jsLength s)
  let lo := min a b
  let hi := max a b
  (s.drop lo).take (hi - lo)

/-- Substring search on character lists. -/
def includesChars : List Char → List Char → Bool
  | [], p => p.isEmpty
  | c :: s, p => p.isPrefixOf (c :: s) || includesChars s p

/-- The test `s.includes(p)`. -/
def includes (s p : String) : Bool := includesChars s.data p.data

/-- Truthiness of a string: the empty string is falsy. -/
def truthy (s : String) : Bool := !s.data.isEmpty

/-- The value `a || b` on strings. -/
def orElse (a b : String) : String := if truthy a then a else b

/-- UTF-8 bytes of a code point. -/
def utf8Bytes (n : Nat) : List Nat :=
  if n < 0x80 then [n]
  else if n < 0x800 then [0xC0 + n / 64, 0x80 + n % 64]
  else if n < 0x10000 then [0xE0 + n / 4096, 0x80 + (n / 64) % 64, 0x80 + n % 64]
  else [0xF0 + n / 262144, 0x80 + (n / 4096) % 64, 0x80 + (n / 64) % 64, 0x80 + n % 64]

/-- One upper-case hexadecimal digit. -/
def hexDigit (n : Nat) : Char :=
  if n < 10 then Char.ofNat (48 + n) else Char.ofNat (55 + n)

/-- The escape `%XX` of one byte. -/
def percentByte (b : Nat) : List Char := ['%', hexDigit (b / 16), hexDigit (b % 16)]

/-- Characters `encodeURIComponent` leaves alone: `A-Z a-z 0-9 - _ . ! ~ * ' ( )`. -/
def uriUnreserved (c : Char) : Bool :=
  c.isAlphanum || "-_.!~*()".data.contains c || c == Char.ofNat 39

/-- The text `encodeURIComponent(s)`. -/
def encodeURIComponent (s : String) : String :=
  ⟨s.data.flatMap fun c =>
    if uriUnreserved c then [c] else (utf8Bytes c.toNat).flatMap percentByte⟩

/-! ## Markup -/

/-- Inline `onclick` handlers that the templates attach. -/
inductive Action where
  /-- The call `loadPosts()` when `args` is `none`, `loadPosts('f', 'v')` otherwise. -/
  | loadPosts (args : Option (String × String))
  /-- The post card: `if(event.target === this || ...){loadPost(id);}`. -/
  | cardClick (postId : Nat)
  /-- The title link: `loadPost(id); return false;`. -/
  | titleClick (postId : Nat)
  /-- The call `toggleLike(postId, commentId, isLike)`, followed in the list by
  `event.stopPropagation();`. -/
  | toggleLike (postId commentId : Option Nat) (isLike : Bool) (stop : Bool)
  | showLogin
  | showRegister
  | showCreatePost
  | logout
  deriving DecidableEq, Repr

/-- An id or `null` as it is written into a handler. -/
def jsIdLiteral : Option Nat → String
  | none => "null"
  | some n => toString n

/-- Source text of a handler. -/
def Action.js : Action → String
  | .loadPosts none => "loadPosts()"
  | .loadPosts (some (f, v)) => "loadPosts(" ++ "\x27" ++ f ++ "\x27, \x27" ++ v ++ "\x27)"
  | .cardClick id =>
      "if(event.target === this || event.target.classList.contains(\x27post-main\x27))\x7bloadPost("
        ++ toString id ++ ");\x7d"
  | .titleClick id => "loadPost(" ++ toString id ++ "); return false;"
  | .toggleLike p c l stop =>
      "toggleLike(" ++ jsIdLiteral p ++ ", " ++ jsIdLiteral c ++ ", " ++ toString l ++ ")"
        ++ (if stop then ";event.stopPropagation();" else "")
  | .showLogin => "showLogin()"
  | .showRegister => "showRegister()"
  | .showCreatePost => "showCreatePost()"
  | .logout => "logout()"

/-- An attribute of an element. -/
inductive Attr where
  | attr (name value : String)
  | onclick (handler : Action)
  deriving DecidableEq, Repr

/-- Name of an attribute. -/
def Attr.name : Attr → String
  | .attr n _ => n
  | .onclick _ => "onclick"

/-- Value of an attribute. -/
def Attr.value : Attr → String
  | .attr _ v => v
  | .onclick h => h.js

/-- Parsed markup. -/
inductive Node where
  | text (data : String)
  | element (tag : String) (attrs : List Attr) (children : List Node)
  deriving Repr

/-- Value of the attribute `name`, when the element has it. -/
def getAttribute (attrs : List Attr) (name : String) : Option String :=
  (attrs.find? fun a => a.name == name).map Attr.value

/-- Escaping of text on serialisation. -/
def escapeText (s : String) : List Char :=
  s.data.flatMap fun c =>
    if c == '&' then "&amp;".data
    else if c == '<' then "&lt;".data
    else if c == '>' then "&gt;".data
    else if c == Char.ofNat 160 then "&nbsp;".data
    else [c]

/-- Escaping of an attribute value on serialisation. -/
def escapeAttr (s : String) : List Char :=
  s.data.flatMap fun c =>
    if c == '&' then "&amp;".data
    else if c == Char.ofNat 34 then "&quot;".data
    else if c == Char.ofNat 160 then "&nbsp;".data
    else [c]

/-- Serialisation of the attributes of a start tag. -/
def attrsHTML : List Attr → List Char
  | [] => []
  | a :: as => ' ' :: a.name.data ++ '=' :: '"' :: escapeAttr a.value ++ '"' :: attrsHTML as

/-- Elements that have no end tag. -/
def isVoid (tag : String) : Bool := tag == "input" || tag == "br" || tag == "img"

mutual
/-- Serialisation of one node. -/
def Node.outerChars : Node → List Char
  | .text d => escapeText d
  | .element tag attrs kids =>
      '<' :: tag.data ++ attrsHTML attrs ++ '>' ::
        (if isVoid tag then [] else innerChars kids ++ '<' :: '/' :: tag.data ++ ['>'])
/-- Serialisation of a sequence of nodes. -/
def innerChars : List Node → List Char
  | [] => []
  | n :: ns => n.outerChars ++ innerChars ns
end

/-- The text `el.innerHTML` of an element with these children. -/
def innerHTML (kids : List Node) : String := ⟨innerChars kids⟩

/-- Split a `class` value into its tokens. -/
def classTokens : List Char → List (List Char)
  | [] => [[]]
  | c :: cs =>
      match classTokens cs with
      | [] => [[c]]
      | t :: ts => if c == ' ' then [] :: t :: ts else (c :: t) :: ts

/-- Whether an element with these attributes carries the class `cls`. -/
def hasClass (attrs : List Attr) (cls : String) : Bool :=
  match getAttribute attrs "class" with
  | none => false
  | some v => (classTokens v.data).contains cls.data

/-- A simple selector: the tests on tag and attributes that the script uses. -/
structure Selector where
  test : String → List Attr → Bool

/-- The selector `.cls`. -/
def Selector.byClass (cls : String) : Selector := ⟨fun _ attrs => hasClass attrs cls⟩

/-- The selector `#id`. -/
def Selector.byId (id : String) : Selector :=
  ⟨fun _ attrs => getAttribute attrs "id" == some id⟩

/-- The selector `tag[name="v"]`. -/
def Selector.byTagName (tag v : String) : Selector :=
  ⟨fun t attrs => t == tag && getAttribute attrs "name" == some v⟩

mutual
/-- First element matching `sel` in this node or below it, in document order:
its attributes and children. -/
def Node.find (sel : Selector) : Node → Option (List Attr × List Node)
  | .text _ => none
  | .element tag attrs kids =>
      if sel.test tag attrs then some (attrs, kids) else findIn sel kids
/-- First element matching `sel` among the descendants of an element with
these children: `el.querySelector(sel)`. -/
def findIn (sel : Selector) : List Node → Option (List Attr × List Node)
  | [] => none
  | n :: ns =>
      match n.find sel with
      | some r => some r
      | none => findIn sel ns
end

/-! ## Data of the API -/

/-- The object `GET /api/user` answers with. -/
structure User where
  /-- The field `user.id`; `none` when the object has no `id`. -/
  id : Option Nat
  username : String
  deriving DecidableEq, Repr

/-- A post as the API returns it; `created` is the instant `new Date(post.created)`. -/
structure Post where
  id : Nat
  title : String
  content : String
  author_name : String
  created : Int
  /-- The field `post.categories`; `none` when it is `null` or missing. -/
  categories : Option (List String)
  likes : Nat
  dislikes : Nat
  user_liked : Bool
  user_disliked : Bool
  deriving DecidableEq, Repr

/-- A comment as the API returns it. -/
structure Comment where
  id : Nat
  author_name : String
  content : String
  created : Int
  likes : Nat
  dislikes : Nat
  user_liked : Bool
  user_disliked : Bool
  deriving DecidableEq, Repr

/-- The object `GET /api/post/{id}` answers with. -/
structure PostData where
  post : Post
  /-- The field `data.comments`; `none` when it is `null` or missing. -/
  comments : Option (List Comment)
  deriving DecidableEq, Repr

/-- Parsed body of a rejected request. -/
inductive ErrorJson where
  /-- The body is `null`: reading `data.error` throws. -/
  | null
  /-- Any other value; `error` is `data.error`, `none` when it is missing. -/
  | object (error : Option String)
  deriving DecidableEq, Repr

/-- Outcome of a `fetch`. -/
inductive Response (β : Type) where
  /-- The `fetch` promise rejects (no response); `message` is the error's message. -/
  | failed (message : String)
  /-- A response arrived.  `json` is what `response.json()` gives: the parsed
  body, or the message of the error it rejects with. -/
  | http (status : Nat) (statusText : String) (json : Except String β)

/-- The flag `response.ok`. -/
def Response.ok {β : Type} : Response β → Bool
  | .failed _ => false
  | .http status _ _ => decide (200 ≤ status) && decide (status ≤ 299)

/-- What the page takes from the browser. -/
structure Env where
  /-- The instant `new Date()`, in milliseconds. -/
  now : Int
  /-- The text `new Date(t).toLocaleString('ru-RU')`. -/
  toLocaleString : Int → String
  /-- The text `c.toUpperCase()`. -/
  toUpperCase : String → String
  /-- Message of the `TypeError` for reading a property of `null` or `undefined`. -/
  typeError : String

/-! ## State -/

/-- What the script does to the world outside its own state. -/
inductive Effect where
  /-- A request `fetch(url, ...)`; `body` lists the form fields sent. -/
  | fetch (method url : String) (body : List (String × String))
  | alert (message : String)
  /-- The call `location.reload()`. -/
  | reload
  /-- The call `form.reset()` on the form with this id. -/
  | reset (formId : String)
  /-- Entry into one of the script's functions. -/
  | call (fn : String) (args : List String)
  /-- The browser's own submission of a form whose `submit` event no listener of
  the script handles; `fields` lists the form fields. -/
  | defaultSubmit (formId : String) (fields : List (String × String))
  deriving DecidableEq, Repr

/-- The form inside the create-post dialog. -/
inductive CreatePostForm where
  /-- The dialog has not been built yet. -/
  | absent
  /-- The form with the category selector and these options; the script has put
  its `submit` listener on it. -/
  | withSelector (options : List String)
  /-- The form built when the categories could not be had: it has no selector, and
  the script puts no `submit` listener on it. -/
  | fallback
  deriving DecidableEq, Repr

/-- An overlay dialog: its `style.display` and the text of its error area. -/
structure Modal where
  display : String
  error : String
  deriving DecidableEq, Repr

/-- The globals of the script and the regions of the page it rewrites. -/
structure State where
  currentUser : Option User
  currentFilter : String
  currentFilterValue : String
  /-- Children of `#posts-container`. -/
  postsContainer : List Node
  /-- Children of `#auth-buttons`; `none` when the page has no such element. -/
  authButtons : Option (List Node)
  /-- Children of `#user-filters`; `none` when the page has no such element. -/
  userFilters : Option (List Node)
  /-- Children of `#categories-list`. -/
  categoriesList : List Node
  loginModal : Modal
  registerModal : Modal
  createPostModal : Modal
  /-- The form that the create-post dialog holds. -/
  createPostForm : CreatePostForm
  /-- Effects so far, oldest first. -/
  log : List Effect

/-- Record an effect. -/
def State.emit (s : State) (e : Effect) : State := { s with log := s.log ++ [e] }

/-- The script's globals at load, on a page that has the regions. -/
def State.initial : State :=
  { currentUser := none, currentFilter := "", currentFilterValue := "",
    postsContainer := [], authButtons := some [], userFilters := some [],
    categoriesList := [],
    loginModal := ⟨"", ""⟩, registerModal := ⟨"", ""⟩, createPostModal := ⟨"", ""⟩,
    createPostForm := .absent, log := [] }

/-! ## Rendering helpers -/

/-- Shorthand for an element that has only a `class` attribute. -/
def withClass (tag cls : String) (kids : List Node) : Node :=
  .element tag [.attr "class" cls] kids

/-- Markup built by `renderAvatar(username)`. -/
def renderAvatar (env : Env) (username : String) : List Node :=
  let initial :=
    if truthy username && decide (jsLength (utf16 username) > 0)
    then env.toUpperCase (display (substring (utf16 username) 0 1)) else "?"
  [withClass "div" "avatar" [.text initial]]

/-- Markup built by `renderNewBadge(created)`: the badge, or nothing. -/
def renderNewBadge (env : Env) (created : Int) : List Node :=
  let diff : ℚ := ((env.now - created : Int) : ℚ) / (1000 * 60 * 60 * 24)
  if diff < 1 then [withClass "span" "badge-new" [.text "NEW"]] else []

/-- The category tags of a post. -/
def categoryTags (cats : List String) : List Node :=
  cats.map fun cat => withClass "span" "category-tag" [.text cat]

/-- The pair of reaction buttons of a post or a comment. -/
def reactionButtons (postId commentId : Option Nat) (stop : Bool)
    (user_liked user_disliked : Bool) (likes dislikes : Nat) : List Node :=
  [ .element "button"
      [.attr "class" ("like-btn " ++ (if user_liked then "active" else "")),
       .onclick (.toggleLike postId commentId true stop)]
      [.text ("👍 " ++ toString likes)],
    .element "button"
      [.attr "class" ("dislike-btn " ++ (if user_disliked then "active" else "")),
       .onclick (.toggleLike postId commentId false stop)]
      [.text ("👎 " ++ toString dislikes)] ]

/-- The body text of a post in the list:
`post.content.substring(0, 200)` followed by `'...'` when `post.content.length > 200`. -/
def summaryText (content : JsString) : JsString :=
  substring content 0 200 ++ (if jsLength content > 200 then utf16 "..." else [])

/-- The text that the template of the list builds for the body of a post: the
line `<div class="post-content">...</div>`, with the body text put in as it is. -/
def postContentMarkup (content : JsString) : JsString :=
  utf16 "<div class=\"post-content\">" ++ summaryText content ++ utf16 "</div>"

/-- One post of the list (the template mapped over `posts` in `loadPosts`). -/
def renderPostSummary (env : Env) (post : Post) : Node :=
  .element "div" [.attr "class" "post post-clickable", .onclick (.cardClick post.id)]
    (renderAvatar env post.author_name ++
     [withClass "div" "post-main"
       [ withClass "div" "post-title"
           (.element "a" [.attr "href" ("/post/" ++ toString post.id),
                          .onclick (.titleClick post.id)] [.text post.title]
             :: renderNewBadge env post.created),
         withClass "div" "post-meta"
           [.text ("Автор: " ++ post.author_name ++ " | " ++ env.toLocaleString post.created)],
         withClass "div" "post-content" [.text (display (summaryText (utf16 post.content)))],
         withClass "div" "post-categories"
           (match post.categories with
            | some cats => categoryTags cats
            | none => []),
         withClass "div" "post-actions"
           (reactionButtons (some post.id) none true
             post.user_liked post.user_disliked post.likes post.dislikes) ]])

/-- The fields of the comment form. -/
def commentFormFields (post : Post) : List Node :=
  [ withClass "div" "form-group"
      [.element "textarea"
        [.attr "name" "content", .attr "placeholder" "Написать комментарий...",
         .attr "required" ""] []],
    .element "input"
      [.attr "type" "hidden", .attr "name" "post_id", .attr "value" (toString post.id)] [],
    .element "div"
      [.attr "id" "commentError", .attr "class" "error",
       .attr "style" "color: red; margin-bottom: 10px;"] [],
    .element "button" [.attr "type" "submit", .attr "class" "btn btn-primary"]
      [.text "Добавить комментарий"] ]

/-- The comment form of the single-post view, or the invitation to log in. -/
def renderCommentForm (currentUser : Option User) (post : Post) : List Node :=
  match currentUser with
  | some _ =>
      [.element "form" [.attr "id" "commentForm", .attr "style" "margin-bottom: 20px;"]
        (commentFormFields post)]
  | none => [.element "p" [] [.text "Войдите, чтобы оставить комментарий."]]

/-- One comment of the single-post view. -/
def renderComment (env : Env) (comment : Comment) : Node :=
  withClass "div" "post"
    (renderAvatar env comment.author_name ++
     [withClass "div" "post-main"
       [ withClass "div" "post-meta"
           [.text (comment.author_name ++ " | " ++ env.toLocaleString comment.created)],
         withClass "div" "post-content" [.text comment.content],
         withClass "div" "post-actions"
           (reactionButtons none (some comment.id) false
             comment.user_liked comment.user_disliked comment.likes comment.dislikes) ]])

/-- The single-post view (the template of `loadPost`). -/
def renderPostDetail (env : Env) (currentUser : Option User) (data : PostData) : List Node :=
  [ withClass "div" "post"
      (renderAvatar env data.post.author_name ++
       [withClass "div" "post-main"
         [ withClass "div" "post-title"
             (.text (data.post.title ++ " ") :: renderNewBadge env data.post.created),
           withClass "div" "post-meta"
             [.text ("Автор: " ++ data.post.author_name ++ " | "
                ++ env.toLocaleString data.post.created)],
           withClass "div" "post-content" [.text data.post.content],
           withClass "div" "post-categories" (categoryTags (data.post.categories.getD [])),
           withClass "div" "post-actions"
             (reactionButtons (some data.post.id) none false
               data.post.user_liked data.post.user_disliked data.post.likes data.post.dislikes) ]]),
    .element "div" [.attr "style" "margin-top: 30px;"]
      (.element "h3" [] [.text "Комментарии"]
        :: renderCommentForm currentUser data.post
        ++ [.element "div" [.attr "id" "comments-container"]
              ((data.comments.getD []).map (renderComment env))]),
    .element "button"
      [.attr "class" "btn btn-secondary", .onclick (.loadPosts none),
       .attr "style" "margin-top: 20px;"]
      [.text "← Назад к постам"] ]

/-! ## Handlers -/

/-- The effect of `closeModal(modalId)` on one dialog. -/
def Modal.close (m : Modal) : Modal := { m with display := "none" }

/-- The function `closeModal(modalId)`. -/
def closeModal (modalId : String) (s : State) : State :=
  if modalId == "loginModal" then { s with loginModal := s.loginModal.close }
  else if modalId == "registerModal" then { s with registerModal := s.registerModal.close }
  else if modalId == "createPostModal" then
    { s with createPostModal := s.createPostModal.close }
  else s

/-- The content `renderAuthButtons` builds. -/
def authButtonsMarkup : Option User → List Node
  | some user =>
      [ .element "span"
          [.attr "style" "font-size:1.1rem;color:#1877f2;font-weight:500;margin-right:16px;"]
          [.text "Привет, ", .element "b" [] [.text user.username], .text "!"],
        .element "button" [.attr "class" "btn btn-primary", .onclick .showCreatePost]
          [.text "Создать пост"],
        .element "button" [.attr "class" "btn btn-secondary", .onclick .logout]
          [.text "Выйти"] ]
  | none =>
      [ .element "button" [.attr "class" "btn btn-primary", .onclick .showLogin]
          [.text "Войти"],
        .element "button" [.attr "class" "btn btn-secondary", .onclick .showRegister]
          [.text "Регистрация"] ]

/-- The function `renderAuthButtons()`. -/
def renderAuthButtons (s : State) : State :=
  match s.authButtons with
  | none => s
  | some _ => { s with authButtons := some (authButtonsMarkup s.currentUser) }

/-- The links `renderUserFilters` shows to a logged-in user. -/
def userFilterLinks : List Node :=
  [ .element "h3" [] [.text "Мои фильтры"],
    .element "ul" []
      [ .element "li" []
          [.element "a" [.attr "href" "#", .onclick (.loadPosts (some ("created", "")))]
            [.text "Мои посты"]],
        .element "li" []
          [.element "a" [.attr "href" "#", .onclick (.loadPosts (some ("liked", "")))]
            [.text "Понравившиеся"]] ] ]

/-- The function `renderUserFilters()`. -/
def renderUserFilters (s : State) : State :=
  match s.userFilters with
  | none => s
  | some _ =>
      if s.currentUser.isSome then { s with userFilters := some userFilterLinks }
      else { s with userFilters := some [] }

/-- The function `fetchCurrentUser()`: it sends the request and returns at once. -/
def fetchCurrentUser (s : State) : State :=
  (s.emit (.call "fetchCurrentUser" [])).emit (.fetch "GET" "/api/user" [])

/-- The `then`/`catch` callbacks of `fetchCurrentUser`.  The body is the parsed
value, `none` for `null` or another falsy value. -/
def fetchCurrentUser_response (r : Response (Option User)) (s : State) : State :=
  let user : Option User :=
    match r with
    | .http _ _ (.ok (some user)) =>
        match user.id with
        | some id => if id != 0 then some user else none
        | none => none
    | _ => none
  renderUserFilters (renderAuthButtons { s with currentUser := user })

/-- The request URL `loadPosts` builds. -/
def postsUrl (filter value : String) : String :=
  let url := "/api/posts"
  if truthy filter then
    let url := url ++ "?filter=" ++ filter
    if truthy value then url ++ "&value=" ++ encodeURIComponent value else url
  else url

/-- The function `loadPosts(filter, value)` up to its `fetch`. -/
def loadPosts (filter value : String) (s : State) : State :=
  let s := s.emit (.call "loadPosts" [filter, value])
  let s := { s with currentFilter := filter, currentFilterValue := value }
  let s := { s with postsContainer := [withClass "div" "loading" [.text "Загрузка постов..."]] }
  s.emit (.fetch "GET" (postsUrl filter value) [])

/-- The `catch` branch of `loadPosts`. -/
def loadPostsError (message : String) (s : State) : State :=
  { s with postsContainer := [.element "p" [] [.text ("Ошибка загрузки постов: " ++ message)]] }

/-- The rest of `loadPosts`, after its `fetch`.  The body is the parsed value, `none` for `null`. -/
def loadPosts_response (env : Env) (r : Response (Option (List Post))) (s : State) : State :=
  match r with
  | .failed message => loadPostsError message s
  | .http status statusText json =>
      if !r.ok then loadPostsError ("HTTP " ++ toString status ++ ": " ++ statusText) s
      else
        match json with
        | .error message => loadPostsError message s
        | .ok none => loadPostsError env.typeError s
        | .ok (some posts) =>
            if posts.length == 0 then
              { s with postsContainer := [.element "p" [] [.text "Постов не найдено."]] }
            else { s with postsContainer := posts.map (renderPostSummary env) }

/-- The function `loadPost(postId)` up to its `fetch`; `postId` is the text appended to the URL. -/
def loadPost (postId : String) (s : State) : State :=
  let s := s.emit (.call "loadPost" [postId])
  let s := { s with postsContainer := [withClass "div" "loading" [.text "Загрузка поста..."]] }
  s.emit (.fetch "GET" ("/api/post/" ++ postId) [])

/-- The rest of `loadPost`, after its `fetch`.  The body is the parsed value, `none` when it
has no `post` object. -/
def loadPost_response (env : Env) (r : Response (Option PostData)) (s : State) : State :=
  match r with
  | .http _ _ (.ok (some data)) =>
      { s with postsContainer := renderPostDetail env s.currentUser data }
  | _ => { s with postsContainer := [.element "p" [] [.text "Ошибка загрузки поста."]] }

/-- A value of the variable `pid` in `toggleLike`. -/
inductive Pid where
  | null
  | num (n : Nat)
  | str (s : String)
  deriving DecidableEq, Repr

/-- Truthiness of a `pid`. -/
def Pid.truthy : Pid → Bool
  | .null => false
  | .num n => n != 0
  | .str s => Forum.truthy s

/-- Text of a `pid` when it is appended to a URL. -/
def Pid.toString : Pid → String
  | .null => "null"
  | .num n => ToString.toString n
  | .str s => s

/-- An id argument of `toggleLike` as a `pid`. -/
def Pid.ofArg : Option Nat → Pid
  | none => .null
  | some n => .num n

/-- Truthiness of an id argument: `null` and `0` are falsy. -/
def idTruthy (id : Option Nat) : Bool := (Pid.ofArg id).truthy

/-- Form fields `toggleLike` sends. -/
def likeFields (postId commentId : Option Nat) (isLike : Bool) : List (String × String) :=
  (if idTruthy postId then [("post_id", (Pid.ofArg postId).toString)] else [])
  ++ (if idTruthy commentId then [("comment_id", (Pid.ofArg commentId).toString)] else [])
  ++ [("is_like", toString isLike)]

/-- The function `toggleLike(postId, commentId, isLike)` up to its `fetch`. -/
def toggleLike (postId commentId : Option Nat) (isLike : Bool) (s : State) : State :=
  if s.currentUser.isNone then s.emit (.alert "Войдите, чтобы ставить лайки")
  else s.emit (.fetch "POST" "/api/like" (likeFields postId commentId isLike))

/-- The test `toggleLike` uses to tell that a single post is on display. -/
def detailOnDisplay (s : State) : Bool :=
  (findIn (.byClass "post-title") s.postsContainer).isSome
    && includes (innerHTML s.postsContainer) "Назад к постам"

/-- The rest of `toggleLike`, after its `fetch`.  The comment form is looked up
in the posts container, the only region whose templates hold that id.  `none`
for the resolved `pid` stands for the exception of reading `.value` of a
missing field, which the `catch` swallows. -/
def toggleLike_response (postId commentId : Option Nat) (r : Response Unit) (s : State) :
    State :=
  match r with
  | .http _ _ (.ok _) =>
      if r.ok then
        let s := fetchCurrentUser s
        if (idTruthy postId || idTruthy commentId) && detailOnDisplay s then
          let pid : Option Pid :=
            if !(Pid.ofArg postId).truthy && idTruthy commentId then
              match findIn (.byId "commentForm") s.postsContainer with
              | some (_, kids) =>
                  match findIn (.byTagName "input" "post_id") kids with
                  | some (attrs, _) => some (.str ((getAttribute attrs "value").getD ""))
                  | none => none
              | none => some (Pid.ofArg postId)
            else some (Pid.ofArg postId)
          match pid with
          | none => s
          | some pid =>
              if pid.truthy then loadPost pid.toString s
              else loadPosts s.currentFilter s.currentFilterValue s
        else loadPosts s.currentFilter s.currentFilterValue s
      else s
  | _ => s

/-- The function `loadCategories()` up to its `fetch`. -/
def loadCategories (s : State) : State := s.emit (.fetch "GET" "/api/categories" [])

/-- The entry `loadCategories` appends for one category. -/
def categoryLink (name : String) : Node :=
  .element "li" []
    [.element "a" [.attr "href" "#", .onclick (.loadPosts (some ("category", name)))]
      [.text name]]

/-- The rest of `loadCategories`, after its `fetch`; the body lists the `name` of each category. -/
def loadCategories_response (r : Response (List String)) (s : State) : State :=
  match r with
  | .http _ _ (.ok categories) =>
      { s with categoriesList := s.categoriesList ++ categories.map categoryLink }
  | _ => s

/-- Text for the error area after a response that is not `ok`, or after no
response: `data.error || generic`, and `generic` from the `catch`. -/
def rejectionText (generic : String) (r : Response ErrorJson) : String :=
  match r with
  | .http _ _ (.ok (.object (some error))) => orElse error generic
  | _ => generic

/-- The function `renderLoginModal()`: the dialog is rebuilt, its error area empty. -/
def renderLoginModal (s : State) : State :=
  { s with loginModal := { s.loginModal with error := "" } }

/-- The function `showLogin()`. -/
def showLogin (s : State) : State :=
  let s := renderLoginModal s
  { s with loginModal := { s.loginModal with display := "block" } }

/-- The function `renderRegisterModal()`: the dialog is rebuilt, its error area empty. -/
def renderRegisterModal (s : State) : State :=
  { s with registerModal := { s.registerModal with error := "" } }

/-- The function `showRegister()`. -/
def showRegister (s : State) : State :=
  let s := renderRegisterModal s
  { s with registerModal := { s.registerModal with display := "block" } }

/-- The `submit` listener of `#loginForm` up to its `fetch`. -/
def loginForm_submit (email password : String) (s : State) : State :=
  s.emit (.fetch "POST" "/api/login" [("email", email), ("password", password)])

/-- The `submit` listener of `#loginForm` after its `fetch`. -/
def loginForm_submit_response (r : Response ErrorJson) (s : State) : State :=
  if r.ok then (closeModal "loginModal" s).emit .reload
  else { s with loginModal := { s.loginModal with error := rejectionText "Ошибка входа" r } }

/-- The `submit` listener of `#registerForm` up to its `fetch`. -/
def registerForm_submit (username email password : String) (s : State) : State :=
  s.emit (.fetch "POST" "/api/register"
    [("username", username), ("email", email), ("password", password)])

/-- The `submit` listener of `#registerForm` after its `fetch`. -/
def registerForm_submit_response (r : Response ErrorJson) (s : State) : State :=
  if r.ok then
    (closeModal "registerModal" s).emit (.alert "Регистрация успешна! Теперь войдите в систему.")
  else
    { s with registerModal :=
        { s.registerModal with error := rejectionText "Ошибка регистрации" r } }

/-- The function `renderCreatePostModal()` up to its `fetch` of the categories. -/
def renderCreatePostModal (s : State) : State := s.emit (.fetch "GET" "/api/categories" [])

/-- The rest of `renderCreatePostModal`, after its `fetch`.  When the categories
arrived the dialog is rebuilt with the selector, one option per category, and the
`submit` listener is put on the form; in every other case (no response, or a body
that is not a list of categories) the `catch` rebuilds it without the selector and
without a listener. -/
def renderCreatePostModal_response (r : Response (List String)) (s : State) : State :=
  match r with
  | .http _ _ (.ok categories) =>
      { s with createPostModal := { s.createPostModal with error := "" },
               createPostForm := .withSelector categories }
  | _ =>
      { s with createPostModal := { s.createPostModal with error := "" },
               createPostForm := .fallback }

/-- The function `showCreatePost()`. -/
def showCreatePost (s : State) : State :=
  let s := renderCreatePostModal s
  { s with createPostModal := { s.createPostModal with display := "block" } }

/-- The text `selectedCategories.join(',')`. -/
def joinCategories (selected : List String) : String := ",".intercalate selected

/-- The `submit` listener of `#createPostForm` up to its `fetch`: `title` and
`content` are the values of the two fields, `selected` the values of
`categorySelect.selectedOptions`.  The listener is on the form only when the form
was built with the selector: `submitCreatePostForm` is the submission itself. -/
def createPostForm_submit (title content : String) (selected : List String) (s : State) :
    State :=
  s.emit (.fetch "POST" "/api/posts"
    [("title", title), ("content", content), ("categories", joinCategories selected)])

/-- Whether the browser lets the create-post form be submitted: the title field is
`required minlength="5" maxlength="100"`, the body field `required minlength="10"
maxlength="2000"`; the select has no such attribute. -/
def createPostFormValid (title content : String) : Bool :=
  decide (5 ≤ jsLength (utf16 title)) && decide (jsLength (utf16 title) ≤ 100)
    && decide (10 ≤ jsLength (utf16 content)) && decide (jsLength (utf16 content) ≤ 2000)

/-- The user submits `#createPostForm` with these values in the two fields, `chosen`
telling which options of the selector are selected.  The browser blocks the
submission of invalid fields; the form with the selector runs the listener on the
selected options; the form without listener is submitted by the browser itself. -/
def submitCreatePostForm (title content : String) (chosen : String → Bool) (s : State) :
    State :=
  if !createPostFormValid title content then s
  else
    match s.createPostForm with
    | .absent => s
    | .withSelector options => createPostForm_submit title content (options.filter chosen) s
    | .fallback =>
        s.emit (.defaultSubmit "createPostForm" [("title", title), ("content", content)])

/-- The `submit` listener of `#createPostForm` after its `fetch`. -/
def createPostForm_submit_response (r : Response ErrorJson) (s : State) : State :=
  if r.ok then loadPosts "" "" ((closeModal "createPostModal" s).emit (.reset "createPostForm"))
  else
    { s with createPostModal :=
        { s.createPostModal with error := rejectionText "Ошибка создания поста" r } }

/-- The function `logout()` up to its `fetch`. -/
def logout (s : State) : State := s.emit (.fetch "POST" "/api/logout" [])

/-- The rest of `logout`, after its `fetch`. -/
def logout_response (r : Response Unit) (s : State) : State :=
  if r.ok then s.emit .reload else s

/-- Run an inline handler.  `loadPosts()` takes the default `''` for both
parameters; the post card runs its handler when the card itself is the target. -/
def Action.run : Action → State → State
  | .loadPosts none => Forum.loadPosts "" ""
  | .loadPosts (some (filter, value)) => Forum.loadPosts filter value
  | .cardClick postId => Forum.loadPost (toString postId)
  | .titleClick postId => Forum.loadPost (toString postId)
  | .toggleLike postId commentId isLike _ => Forum.toggleLike postId commentId isLike
  | .showLogin => Forum.showLogin
  | .showRegister => Forum.showRegister
  | .showCreatePost => Forum.showCreatePost
  | .logout => Forum.logout

/-- The `DOMContentLoaded` listener. -/
def domContentLoaded (s : State) : State :=
  loadCategories (loadPosts "" "" (fetchCurrentUser s))

/-- The `onclick` handler among these attributes. -/
def onclickOf : List Attr → Option Action
  | [] => none
  | .onclick h :: _ => some h
  | .attr _ _ :: as => onclickOf as

/-- The label of a control: its text, when text is all it holds. -/
def labelOf : List Node → Option String
  | [.text t] => some t
  | _ => none

mutual
/-- The handler of the first control labelled `label` in this node or below it. -/
def Node.handlerOf (label : String) : Node → Option Action
  | .text _ => none
  | .element _ attrs kids =>
      match onclickOf attrs with
      | some h => if labelOf kids == some label then some h else handlerIn label kids
      | none => handlerIn label kids
/-- The handler of the first control labelled `label` among these nodes and
their descendants: what a click on that control runs. -/
def handlerIn (label : String) : List Node → Option Action
  | [] => none
  | n :: ns =>
      match n.handlerOf label with
      | some h => some h
      | none => handlerIn label ns
end

/-! ## The promise of `fetchCurrentUser`, and the reload of the page -/

/-- The promise `fetch('/api/user').then(r => r.json())`: fulfilled with the
parsed body, or rejected with the message of the transport or parse error. -/
def userJson (r : Response (Option User)) : Except String (Option User) :=
  match r with
  | .failed message => .error message
  | .http _ _ json => json

/-- The first callback of `fetchCurrentUser`, `user => ...`, with its test
`user && user.id`. -/
def fetchCurrentUser_then (user : Option User) (s : State) : State :=
  let hasId :=
    match user with
    | some u => idTruthy u.id
    | none => false
  if hasId then renderUserFilters (renderAuthButtons { s with currentUser := user })
  else renderUserFilters (renderAuthButtons { s with currentUser := none })

/-- The `catch` callback of `fetchCurrentUser`. -/
def fetchCurrentUser_catch (s : State) : State :=
  renderUserFilters (renderAuthButtons { s with currentUser := none })

/-- The chain `fetch(...).then(r => r.json()).then(user => ...).catch(() => ...)`
once settled: `.ok` with the state it leaves when it is fulfilled, `.error` when
it is rejected.  `then` runs its callback on the value of a fulfilled promise and
passes a rejection on; `catch` runs its callback on a rejection. -/
def fetchCurrentUser_promise (r : Response (Option User)) (s : State) : Except String State :=
  ((userJson r).map fun user => fetchCurrentUser_then user s).tryCatch
    fun _ => .ok (fetchCurrentUser_catch s)

/-- The page after `location.reload()`: the script starts again, so its globals
have their initial values and the regions are empty as the page ships them, and
the `DOMContentLoaded` listener runs.  The log goes on. -/
def pageReload (s : State) : State :=
  domContentLoaded
    { State.initial with
      authButtons := s.authButtons.map fun _ => []
      userFilters := s.userFilters.map fun _ => []
      log := s.log }

/-! ## Sample data -/

/-- A browser: noon of the second day, a fixed date text, ASCII upper-casing. -/
def sampleEnv : Env :=
  { now := 129600000
    toLocaleString := fun _ => "01.01.1970, 00:00:00"
    toUpperCase := fun c => ⟨c.data.map Char.toUpper⟩
    typeError := "Cannot read properties of null" }

def sampleUser : User := { id := some 1, username := "ann" }

def samplePost : Post :=
  { id := 1, title := "Hi", content := "hello", author_name := "bob", created := 0,
    categories := some ["go"], likes := 0, dislikes := 0, user_liked := false,
    user_disliked := false }

/-- A post whose title is the label of the back control. -/
def backLabelPost : Post := { samplePost with title := "Назад к постам" }

def sampleComment : Comment :=
  { id := 7, author_name := "eve", content := "nice", created := 0, likes := 0, dislikes := 0,
    user_liked := false, user_disliked := false }

def sampleData : PostData := { post := samplePost, comments := some [sampleComment] }

/-- A `200 OK` response with this body. -/
def okResponse {β : Type} (body : β) : Response β := .http 200 "OK" (.ok body)

/-- The page of a logged-in user showing `posts` under the filter `(category, go)`. -/
def filteredList (posts : List Post) : State :=
  loadPosts_response sampleEnv (okResponse (some posts))
    (loadPosts "category" "go"
      (fetchCurrentUser_response (okResponse (some sampleUser)) State.initial))

/-- The page after this run: it loads; the list and the categories arrive; the
visitor picks the category `go` and that list arrives; the visitor opens post 1
and the post arrives while the answer of `/api/user` is still on its way; then
that answer arrives and names the user. -/
def lateLoginDetail : State :=
  fetchCurrentUser_response (okResponse (some sampleUser))
    (loadPost_response sampleEnv (okResponse (some sampleData))
      (loadPost "1"
        (loadPosts_response sampleEnv (okResponse (some [samplePost]))
          (loadPosts "category" "go"
            (loadCategories_response (okResponse ["go"])
              (loadPosts_response sampleEnv (okResponse (some [samplePost]))
                (domContentLoaded State.initial)))))))

/-- The back control of the single-post view. -/
def backLabel : String := "← Назад к постам"

/-- The single-post view opened from the filtered list. -/
def detailFromFilteredList : State :=
  loadPost_response sampleEnv (okResponse (some sampleData))
    (loadPost "1" (filteredList [samplePost]))

/-- Split a character list at its commas. -/
def splitCommas : List Char → List (List Char)
  | [] => [[]]
  | c :: cs =>
      match splitCommas cs with
      | [] => [[c]]
      | t :: ts => if c == ',' then [] :: t :: ts else (c :: t) :: ts

/-- The names a `categories` field carries. -/
def categoryNames (field : String) : List String := (splitCommas field.data).map String.mk


/-- The page of a visitor that shows the empty list under the filter
`(category, go)`, on which the registration form has been opened and sent. -/
def registerSent : State :=
  registerForm_submit "eve" "eve@example.org" "secret"
    (showRegister
      (loadPosts_response sampleEnv (okResponse (some []))
        (loadPosts "category" "go" State.initial)))

/-- The page of the sample user, list under the filter `(category, go)`, on which
the create-post dialog has been opened and built with five categories. -/
def createPostOpen : State :=
  renderCreatePostModal_response (okResponse ["a", "b", "c", "d", "e"])
    (showCreatePost (filteredList [samplePost]))

/-! ## Lemmas -/

theorem truthy_iff (s : String) : truthy s = true ↔ s ≠ "" := by
  cases s with
  | mk d => cases d <;> simp [truthy, String.ext_iff]

theorem truthy_empty : truthy "" = false := rfl

theorem renderNewBadge_eq (env : Env) (created : Int) :
    renderNewBadge env created =
      if env.now - created < 86400000 then [withClass "span" "badge-new" [.text "NEW"]]
      else [] := by
  unfold renderNewBadge
  have h : ((((env.now - created : Int) : ℚ) / (1000 * 60 * 60 * 24)) < 1)
      ↔ env.now - created < 86400000 := by
    rw [div_lt_one (by norm_num)]
    have e : ((1000 : ℚ) * 60 * 60 * 24) = ((86400000 : Int) : ℚ) := by norm_num
    rw [e, Int.cast_lt]
  simp only [h]

theorem substring_zero (s : JsString) (n : Nat) : substring s 0 n = s.take n := by
  have h : List.take (min n s.length) s = List.take n s := by
    rcases le_total n s.length with h | h
    · rw [min_eq_left h]
    · rw [min_eq_right h, List.take_of_length_le h, List.take_of_length_le le_rfl]
  simp [substring, jsLength, h]

theorem ok_http {β : Type} (status : Nat) (statusText : String) (json : Except String β)
    (h : 200 ≤ status ∧ status ≤ 299) : (Response.http status statusText json).ok = true := by
  simp [Response.ok, h.1, h.2]

theorem handlerIn_nil (label : String) : handlerIn label [] = none := rfl

theorem handlerIn_cons (label : String) (n : Node) (ns : List Node) :
    handlerIn label (n :: ns) = (n.handlerOf label).orElse fun _ => handlerIn label ns := by
  rw [handlerIn]
  cases n.handlerOf label <;> rfl

theorem handlerOf_text (label d : String) : (Node.text d).handlerOf label = none := rfl

theorem handlerOf_element (label tag : String) (attrs : List Attr) (kids : List Node) :
    (Node.element tag attrs kids).handlerOf label
      = match onclickOf attrs with
        | some h => if labelOf kids == some label then some h else handlerIn label kids
        | none => handlerIn label kids := by
  simp only [Node.handlerOf]

theorem handlerOf_withClass (label tag cls : String) (kids : List Node) :
    (withClass tag cls kids).handlerOf label = handlerIn label kids := by
  simp only [withClass, handlerOf_element, onclickOf]

theorem handlerIn_append (label : String) (a b : List Node) :
    handlerIn label (a ++ b) = (handlerIn label a).orElse fun _ => handlerIn label b := by
  induction a with
  | nil => rfl
  | cons n ns ih =>
      rw [List.cons_append, handlerIn_cons, handlerIn_cons, ih]
      cases n.handlerOf label <;> rfl

theorem handlerIn_renderAvatar (label : String) (env : Env) (name : String) :
    handlerIn label (renderAvatar env name) = none := by
  simp only [renderAvatar, handlerIn_cons, handlerOf_withClass, handlerOf_text, handlerIn_nil]
  rfl

theorem handlerIn_renderNewBadge (label : String) (env : Env) (created : Int) :
    handlerIn label (renderNewBadge env created) = none := by
  rw [renderNewBadge_eq]
  split
  · simp only [handlerIn_cons, handlerOf_withClass, handlerOf_text, handlerIn_nil]
    rfl
  · rfl

theorem handlerIn_categoryTags (label : String) (cats : List String) :
    handlerIn label (categoryTags cats) = none := by
  induction cats with
  | nil => rfl
  | cons c cs ih =>
      show handlerIn label (withClass "span" "category-tag" [.text c] :: categoryTags cs) = none
      rw [handlerIn_cons, handlerOf_withClass, ih, handlerIn_cons, handlerOf_text, handlerIn_nil]
      rfl

theorem likeLabel_ne_backLabel (n : Nat) :
    (labelOf [.text ("👍 " ++ toString n)] == some backLabel) = false := by
  have h : "👍 " ++ toString n ≠ backLabel := by
    intro e
    have e' := congrArg (fun x : String => x.data.head?) e
    have e1 : ("👍 " ++ toString n).data.head? = some '👍' := rfl
    have e2 : backLabel.data.head? = some '←' := rfl
    simp only [e1, e2] at e'
    exact absurd e' (by decide)
  simp [labelOf, h]

theorem dislikeLabel_ne_backLabel (n : Nat) :
    (labelOf [.text ("👎 " ++ toString n)] == some backLabel) = false := by
  have h : "👎 " ++ toString n ≠ backLabel := by
    intro e
    have e' := congrArg (fun x : String => x.data.head?) e
    have e1 : ("👎 " ++ toString n).data.head? = some '👎' := rfl
    have e2 : backLabel.data.head? = some '←' := rfl
    simp only [e1, e2] at e'
    exact absurd e' (by decide)
  simp [labelOf, h]

theorem handlerIn_reactionButtons (p c : Option Nat) (stop l d : Bool) (n m : Nat) :
    handlerIn backLabel (reactionButtons p c stop l d n m) = none := by
  simp only [reactionButtons, handlerIn_cons, handlerOf_element, onclickOf,
    likeLabel_ne_backLabel, dislikeLabel_ne_backLabel, handlerOf_text, handlerIn_nil]
  rfl

theorem handlerIn_renderComment (env : Env) (cs : List Comment) :
    handlerIn backLabel (cs.map (renderComment env)) = none := by
  induction cs with
  | nil => rfl
  | cons c cs ih =>
      rw [List.map_cons, handlerIn_cons, ih]
      simp only [renderComment, handlerOf_withClass, handlerIn_append, handlerIn_renderAvatar,
        handlerIn_cons, handlerOf_text, handlerIn_nil, handlerIn_reactionButtons]
      rfl

theorem handlerIn_renderCommentForm (u : Option User) (post : Post) :
    handlerIn backLabel (renderCommentForm u post) = none := by
  cases u <;> rfl

theorem backLabel_label :
    (labelOf [.text "← Назад к постам"] == some backLabel) = true := by decide

theorem handlerIn_backLabel_detail (env : Env) (u : Option User) (data : PostData) :
    handlerIn backLabel (renderPostDetail env u data) = some (.loadPosts none) := by
  simp only [renderPostDetail, handlerIn_cons, handlerOf_withClass, handlerIn_append,
    handlerIn_renderAvatar, handlerOf_text, handlerIn_renderNewBadge, handlerIn_categoryTags,
    handlerIn_reactionButtons, handlerIn_nil, handlerOf_element, onclickOf,
    handlerIn_renderCommentForm, handlerIn_renderComment, backLabel_label]
  rfl

theorem orElse_of_ne (a b : String) (h : a ≠ "") : orElse a b = a := by
  simp [orElse, (truthy_iff a).2 h]

/-! ## The claims -/

/-- C1: for every filter `f` and value `v`, `loadPosts(f, v)` sends one request, a
`GET` whose URL is `/api/posts` when `f` is empty, `/api/posts?filter=f` when `f`
is not empty and `v` is, and `/api/posts?filter=f&value=encodeURIComponent(v)`
when neither is empty; and the link labelled "Мои посты" that
`renderUserFilters` shows to a logged-in user runs `loadPosts('created', '')`,
whose request is exactly `/api/posts?filter=created`. -/
theorem loadPosts_requests_url (f v : String) (s : State) (u : User) (old : List Node) :
    (∃ url, (loadPosts f v s).log
        = s.log ++ [.call "loadPosts" [f, v], .fetch "GET" url []]
      ∧ (f = "" → url = "/api/posts")
      ∧ (f ≠ "" → v = "" → url = "/api/posts?filter=" ++ f)
      ∧ (f ≠ "" → v ≠ "" → url = "/api/posts?filter=" ++ f ++ "&value=" ++ encodeURIComponent v))
    ∧ (∃ links,
        (renderUserFilters { s with currentUser := some u, userFilters := some old }).userFilters
          = some links
        ∧ handlerIn "Мои посты" links = some (.loadPosts (some ("created", "")))
        ∧ ((Action.loadPosts (some ("created", ""))).run s).log
          = s.log ++ [.call "loadPosts" ["created", ""],
                      .fetch "GET" "/api/posts?filter=created" []]) := by
  refine ⟨⟨postsUrl f v, ?_, ?_, ?_, ?_⟩, userFilterLinks, ?_, ?_, ?_⟩
  · simp [loadPosts, State.emit]
  · intro h; subst h; rfl
  · intro hf hv
    subst hv
    have := (truthy_iff f).2 hf
    simp [postsUrl, this, truthy_empty]
  · intro hf hv
    have h1 := (truthy_iff f).2 hf
    have h2 := (truthy_iff v).2 hv
    simp [postsUrl, h1, h2]
  · simp [renderUserFilters]
  · decide
  · simp [Action.run, loadPosts, State.emit]; decide

/-- C2, evaluated on the script: a logged-in user looks at the list under the
filter `(category, go)`; the list holds one post, titled "Назад к постам".  A
successful `toggleLike(1, null, true)` then calls `loadPost(1)` and requests
`/api/post/1`; it does not call `loadPosts`. -/
theorem toggleLike_list_back_label :
    (filteredList [backLabelPost]).currentUser = some sampleUser
    ∧ (filteredList [backLabelPost]).currentFilter = "category"
    ∧ (filteredList [backLabelPost]).currentFilterValue = "go"
    ∧ (filteredList [backLabelPost]).postsContainer = [renderPostSummary sampleEnv backLabelPost]
    ∧ (toggleLike_response (some 1) none (okResponse ())
        (toggleLike (some 1) none true (filteredList [backLabelPost]))).log
      = (filteredList [backLabelPost]).log ++
          [ .fetch "POST" "/api/like" [("post_id", "1"), ("is_like", "true")],
            .call "fetchCurrentUser" [],
            .fetch "GET" "/api/user" [],
            .call "loadPost" ["1"],
            .fetch "GET" "/api/post/1" [] ] := by
  refine ⟨rfl, rfl, rfl, rfl, ?_⟩
  decide!

/-- C3, evaluated on the script: the visitor opens post 1 from the list under the
filter `(category, go)` and `loadPost` renders it before the answer of `/api/user`
has arrived, so the single-post view has no comment form; the answer then names
the user.  A successful `toggleLike(null, 7, true)` on the comment shown in that
view finds no `#commentForm`, so no post id: it calls
`loadPosts('category', 'go')` and requests the list, and does not call `loadPost`. -/
theorem toggleLike_comment_late_login :
    lateLoginDetail.postsContainer = renderPostDetail sampleEnv none sampleData
    ∧ lateLoginDetail.currentUser = some sampleUser
    ∧ lateLoginDetail.currentFilter = "category"
    ∧ lateLoginDetail.currentFilterValue = "go"
    ∧ sampleComment ∈ sampleData.comments.getD []
    ∧ (toggleLike_response none (some sampleComment.id) (okResponse ())
        (toggleLike none (some sampleComment.id) true lateLoginDetail)).log
      = lateLoginDetail.log ++
          [ .fetch "POST" "/api/like" [("comment_id", "7"), ("is_like", "true")],
            .call "fetchCurrentUser" [],
            .fetch "GET" "/api/user" [],
            .call "loadPosts" ["category", "go"],
            .fetch "GET" "/api/posts?filter=category&value=go" [] ] := by
  refine ⟨rfl, rfl, rfl, rfl, by decide, ?_⟩
  decide!

/-- C4: when `currentUser` is `null`, `toggleLike` only shows the log-in prompt:
the state afterwards is the state before with that one alert added to the log,
so no request is sent and `currentUser`, the filter and the page are unchanged. -/
theorem toggleLike_anonymous (postId commentId : Option Nat) (isLike : Bool) (s : State)
    (h : s.currentUser = none) :
    toggleLike postId commentId isLike s
        = { s with log := s.log ++ [.alert "Войдите, чтобы ставить лайки"] }
      ∧ ∀ method url body,
          Effect.fetch method url body ∈ (toggleLike postId commentId isLike s).log →
            Effect.fetch method url body ∈ s.log := by
  have e : toggleLike postId commentId isLike s
      = { s with log := s.log ++ [.alert "Войдите, чтобы ставить лайки"] } := by
    simp [toggleLike, h, State.emit]
  refine ⟨e, fun method url body hm => ?_⟩
  rw [e] at hm
  simpa using hm

/-- C4 at the freshly loaded page, where nobody is logged in. -/
theorem toggleLike_anonymous_witness :
    State.initial.currentUser = none
      ∧ toggleLike (some 1) none true State.initial
        = { State.initial with
            log := State.initial.log ++ [.alert "Войдите, чтобы ставить лайки"] } :=
  ⟨rfl, (toggleLike_anonymous (some 1) none true State.initial rfl).1⟩

/-- C5 fails as stated: a post is opened from the list under the filter
`(category, go)`.  The filter is still `(category, go)` in the single-post view,
but the back control runs `loadPosts()`: the request is `/api/posts`, not
`/api/posts?filter=category&value=go`, and the filter kind becomes empty. -/
theorem back_control_drops_filter :
    detailFromFilteredList.currentFilter = "category"
    ∧ detailFromFilteredList.currentFilterValue = "go"
    ∧ handlerIn backLabel detailFromFilteredList.postsContainer = some (.loadPosts none)
    ∧ ((Action.loadPosts none).run detailFromFilteredList).log
        = detailFromFilteredList.log ++
          [.call "loadPosts" ["", ""], .fetch "GET" "/api/posts" []]
    ∧ postsUrl detailFromFilteredList.currentFilter detailFromFilteredList.currentFilterValue
        = "/api/posts?filter=category&value=go"
    ∧ ((Action.loadPosts none).run detailFromFilteredList).currentFilter = "" := by
  refine ⟨rfl, rfl, ?_, ?_, ?_, rfl⟩
  · decide!
  · decide!
  · decide

/-- C5, amended: `loadPost` leaves the filter unchanged, whatever the response;
the back control of every single-post view runs `loadPosts()` with no arguments,
which requests `/api/posts` without parameters and sets the filter to none. -/
theorem loadPost_keeps_filter_back_resets (env : Env) (postId : String)
    (r : Response (Option PostData)) (s : State) (u : Option User) (data : PostData)
    (t : State) :
    (loadPost_response env r (loadPost postId s)).currentFilter = s.currentFilter
    ∧ (loadPost_response env r (loadPost postId s)).currentFilterValue = s.currentFilterValue
    ∧ handlerIn backLabel (renderPostDetail env u data) = some (.loadPosts none)
    ∧ ((Action.loadPosts none).run t).log
        = t.log ++ [.call "loadPosts" ["", ""], .fetch "GET" "/api/posts" []]
    ∧ ((Action.loadPosts none).run t).currentFilter = ""
    ∧ ((Action.loadPosts none).run t).currentFilterValue = "" := by
  refine ⟨?_, ?_, handlerIn_backLabel_detail env u data, ?_, rfl, rfl⟩
  · unfold loadPost_response; split <;> rfl
  · unfold loadPost_response; split <;> rfl
  · simp [Action.run, loadPosts, State.emit]
    decide

/-- C6 fails as stated: the create-post form is submitted while the list is under
the filter `(category, go)`; after the successful response the list is requested
from `/api/posts` without parameters and the filter kind is empty. -/
theorem createPost_success_drops_filter :
    (filteredList [samplePost]).currentFilter = "category"
    ∧ (filteredList [samplePost]).currentFilterValue = "go"
    ∧ (createPostForm_submit_response (okResponse .null)
        (createPostForm_submit "A title" "Some content" ["go"] (filteredList [samplePost]))).log
      = (filteredList [samplePost]).log ++
          [ .fetch "POST" "/api/posts"
              [("title", "A title"), ("content", "Some content"), ("categories", "go")],
            .reset "createPostForm",
            .call "loadPosts" ["", ""],
            .fetch "GET" "/api/posts" [] ]
    ∧ (createPostForm_submit_response (okResponse .null)
        (createPostForm_submit "A title" "Some content" ["go"]
          (filteredList [samplePost]))).currentFilter = "" := by
  refine ⟨rfl, rfl, ?_, rfl⟩
  decide!

/-- C6, amended: a successful create-post response closes the dialog, resets the
form and calls `loadPosts()` with no arguments: the list is requested from
`/api/posts` and the filter afterwards is none, whatever it was before. -/
theorem createPost_success_reloads_unfiltered (r : Response ErrorJson) (s : State)
    (h : r.ok = true) :
    (createPostForm_submit_response r s).createPostModal.display = "none"
    ∧ (createPostForm_submit_response r s).log
        = s.log ++ [.reset "createPostForm", .call "loadPosts" ["", ""],
                    .fetch "GET" "/api/posts" []]
    ∧ (createPostForm_submit_response r s).currentFilter = ""
    ∧ (createPostForm_submit_response r s).currentFilterValue = "" := by
  simp only [createPostForm_submit_response, h, if_true]
  refine ⟨?_, ?_, rfl, rfl⟩
  · simp [loadPosts, State.emit, closeModal, Modal.close]
  · simp [loadPosts, State.emit, closeModal]
    decide

/-- C6, amended, at a `200` answer on the freshly loaded page. -/
theorem createPost_success_reloads_unfiltered_witness :
    (okResponse ErrorJson.null).ok = true
    ∧ (createPostForm_submit_response (okResponse .null) State.initial).currentFilter = ""
    ∧ (createPostForm_submit_response (okResponse .null) State.initial).log
        = State.initial.log ++ [.reset "createPostForm", .call "loadPosts" ["", ""],
                    .fetch "GET" "/api/posts" []] :=
  ⟨rfl, (createPost_success_reloads_unfiltered (okResponse .null) State.initial rfl).2.2.1,
    (createPost_success_reloads_unfiltered (okResponse .null) State.initial rfl).2.1⟩

/-- C7, evaluated on the script: the create-post dialog was built with the five
categories `a` to `e`, all five are selected, and the title and the body are
within their limits.  The submission sends `POST /api/posts` with the
`categories` field `a,b,c,d,e`, five names.  On the same form a title of three
characters, below the limit its label states, is not sent at all. -/
theorem createPost_sends_five_categories :
    createPostOpen.createPostForm = .withSelector ["a", "b", "c", "d", "e"]
    ∧ createPostFormValid "A title" "Some content" = true
    ∧ (submitCreatePostForm "A title" "Some content" (fun _ => true) createPostOpen).log
      = createPostOpen.log ++
          [.fetch "POST" "/api/posts"
            [("title", "A title"), ("content", "Some content"),
             ("categories", "a,b,c,d,e")]]
    ∧ categoryNames "a,b,c,d,e" = ["a", "b", "c", "d", "e"]
    ∧ ¬ (categoryNames "a,b,c,d,e").length ≤ 4
    ∧ (submitCreatePostForm "Hey" "Some content" (fun _ => true) createPostOpen).log
      = createPostOpen.log := by
  refine ⟨rfl, by decide, ?_, by decide, by decide, ?_⟩
  · decide!
  · decide!

/-- C8: for every post body `s`, as a sequence of UTF-16 code units (the unit of
`length` and `substring`), the body text that the list shows is `s` itself when
its length is at most 200, and its first 200 units followed by "..." when its
length is greater; it is the first 200 units plus "..." exactly when the length
exceeds 200.  The template puts that text as it is between
`<div class="post-content">` and `</div>`, whatever the body holds. -/
theorem summaryText_spec (s : JsString) :
    (jsLength s ≤ 200 → summaryText s = s)
    ∧ (200 < jsLength s → summaryText s = s.take 200 ++ utf16 "...")
    ∧ (summaryText s = s.take 200 ++ utf16 "..." ↔ 200 < jsLength s)
    ∧ postContentMarkup s
        = utf16 "<div class=\"post-content\">"
          ++ (if jsLength s ≤ 200 then s else s.take 200 ++ utf16 "...")
          ++ utf16 "</div>" := by
  have hle : jsLength s ≤ 200 → summaryText s = s := by
    intro h
    have h' : ¬ jsLength s > 200 := by omega
    unfold summaryText
    rw [if_neg h', substring_zero, List.take_of_length_le h, List.append_nil]
  have hgt : 200 < jsLength s → summaryText s = s.take 200 ++ utf16 "..." := by
    intro h
    unfold summaryText
    rw [if_pos h, substring_zero]
  refine ⟨hle, hgt, ⟨fun h => ?_, hgt⟩, ?_⟩
  · by_contra hn
    have hl : jsLength s ≤ 200 := by omega
    rw [hle hl] at h
    have e := congrArg List.length h
    have e3 : (utf16 "...").length = 3 := by decide
    simp only [List.length_append, List.length_take, e3] at e
    simp only [jsLength] at hl
    omega
  · unfold postContentMarkup
    by_cases h : jsLength s ≤ 200
    · rw [hle h, if_pos h]
    · rw [hgt (by omega), if_neg h]

/-- C9: with `n` the current instant and `c` the creation instant in milliseconds,
`renderNewBadge` gives the markup `<span class="badge-new">NEW</span>` exactly
when `n - c < 86400000`, and the empty string otherwise, in particular when
`n - c` is exactly 24 hours. -/
theorem renderNewBadge_spec (env : Env) (created : Int) :
    (env.now - created < 86400000 →
      innerHTML (renderNewBadge env created) = "<span class=\"badge-new\">NEW</span>")
    ∧ (¬ env.now - created < 86400000 → innerHTML (renderNewBadge env created) = "")
    ∧ (env.now - created = 86400000 → innerHTML (renderNewBadge env created) = "")
    ∧ (innerHTML (renderNewBadge env created) = "<span class=\"badge-new\">NEW</span>"
        ↔ env.now - created < 86400000) := by
  rw [renderNewBadge_eq]
  by_cases h : env.now - created < 86400000
  · simp only [h, if_true]
    refine ⟨fun _ => by decide, fun hn => absurd trivial hn, fun e => by omega, ?_⟩
    exact ⟨fun _ => trivial, fun _ => by decide⟩
  · simp only [h, if_false]
    refine ⟨fun hn => absurd hn (by simp), fun _ => by decide, fun _ => by decide, ?_⟩
    exact ⟨fun e => absurd e (by decide), fun hn => absurd hn (by simp)⟩

/-- C10: after a login response that is not a success (or no response at all) the
login dialog keeps its `display`, `currentUser` is unchanged and nothing is added
to the log (no reload).  The error area shows the `error` string of the body as it
is when the body carries a non-empty one; it shows "Ошибка входа" when the body
has no `error` or an empty one, when the body is `null` or cannot be parsed, and
when the request fails in transport. -/
theorem login_failure_keeps_modal (r : Response ErrorJson) (s : State) (h : r.ok = false) :
    (loginForm_submit_response r s).loginModal.display = s.loginModal.display
    ∧ (loginForm_submit_response r s).currentUser = s.currentUser
    ∧ (loginForm_submit_response r s).log = s.log
    ∧ (∀ status statusText message, message ≠ "" →
        r = .http status statusText (.ok (.object (some message))) →
        (loginForm_submit_response r s).loginModal.error = message)
    ∧ (∀ status statusText,
        r = .http status statusText (.ok (.object (some "")))
          ∨ r = .http status statusText (.ok (.object none))
          ∨ r = .http status statusText (.ok .null) →
        (loginForm_submit_response r s).loginModal.error = "Ошибка входа")
    ∧ (∀ status statusText message, r = .http status statusText (.error message) →
        (loginForm_submit_response r s).loginModal.error = "Ошибка входа")
    ∧ (∀ message, r = .failed message →
        (loginForm_submit_response r s).loginModal.error = "Ошибка входа") := by
  have e : loginForm_submit_response r s
      = { s with loginModal := { s.loginModal with error := rejectionText "Ошибка входа" r } } := by
    simp [loginForm_submit_response, h]
  rw [e]
  refine ⟨rfl, rfl, rfl, ?_, ?_, ?_, ?_⟩
  · intro status statusText message hm hr
    subst hr
    exact orElse_of_ne _ _ hm
  · intro status statusText hr
    rcases hr with hr | hr | hr <;> subst hr <;> rfl
  · intro status statusText message hr
    subst hr
    rfl
  · intro message hr
    subst hr
    rfl

/-- C10 at the answer `401` whose body carries the error "bad credentials". -/
theorem login_failure_keeps_modal_witness :
    (Response.http 401 "Unauthorized" (.ok (ErrorJson.object (some "bad credentials")))).ok
        = false
    ∧ (loginForm_submit_response
          (.http 401 "Unauthorized" (.ok (.object (some "bad credentials"))))
          (showLogin State.initial)).loginModal.error = "bad credentials"
    ∧ (loginForm_submit_response
          (.http 401 "Unauthorized" (.ok (.object (some "bad credentials"))))
          (showLogin State.initial)).loginModal.display = "block" :=
  ⟨rfl,
    (login_failure_keeps_modal
      (.http 401 "Unauthorized" (.ok (.object (some "bad credentials"))))
      (showLogin State.initial) rfl).2.2.2.1 401 "Unauthorized" "bad credentials"
      (by decide) rfl,
    (login_failure_keeps_modal
      (.http 401 "Unauthorized" (.ok (.object (some "bad credentials"))))
      (showLogin State.initial) rfl).1⟩


theorem renderAuthButtons_currentUser (s : State) :
    (renderAuthButtons s).currentUser = s.currentUser := by
  unfold renderAuthButtons
  split <;> rfl

theorem renderUserFilters_currentUser (s : State) :
    (renderUserFilters s).currentUser = s.currentUser := by
  unfold renderUserFilters
  split
  · rfl
  · split <;> rfl

theorem fetchCurrentUser_response_currentUser (r : Response (Option User)) (s : State) :
    (fetchCurrentUser_response r s).currentUser
      = match r with
        | .http _ _ (.ok (some user)) => if idTruthy user.id then some user else none
        | _ => none := by
  unfold fetchCurrentUser_response
  simp only [renderUserFilters_currentUser, renderAuthButtons_currentUser]
  split
  · next user => cases h : user.id <;> simp [h, idTruthy, Pid.ofArg, Pid.truthy]
  · rfl


/-- C11 fails as stated: a successful registration, sent from the page that shows
the list under the filter `(category, go)`, closes the dialog and shows an alert;
it does not reload the page, the filter stays `(category, go)` and `/api/user` is
not asked again. -/
theorem register_success_no_reload :
    (okResponse ErrorJson.null).ok = true
    ∧ (registerForm_submit_response (okResponse .null) registerSent).log
        = registerSent.log ++ [.alert "Регистрация успешна! Теперь войдите в систему."]
    ∧ Effect.reload ∉ (registerForm_submit_response (okResponse .null) registerSent).log
    ∧ Effect.fetch "GET" "/api/user" []
        ∉ (registerForm_submit_response (okResponse .null) registerSent).log
    ∧ (registerForm_submit_response (okResponse .null) registerSent).currentFilter = "category"
    ∧ (registerForm_submit_response (okResponse .null) registerSent).currentFilterValue = "go" := by
  refine ⟨rfl, ?_, ?_, ?_, rfl, rfl⟩
  · decide!
  · decide!
  · decide!

/-- C11, amended: a success response to login closes the login dialog and calls
`location.reload()`, and a success response to logout calls `location.reload()`;
the reloaded page starts with no user and the filter none, and asks for
`/api/user` and for `/api/posts` without parameters.  A success response to
register closes the register dialog and shows an alert, with no reload: the user,
the filter and the list are as before.  After a response to login or register
that is not a success the dialog keeps its `display`. -/
theorem auth_responses (ok : Response ErrorJson) (out : Response Unit)
    (bad : Response ErrorJson) (s : State)
    (hok : ok.ok = true) (hout : out.ok = true) (hbad : bad.ok = false) :
    ((loginForm_submit_response ok s).log = s.log ++ [.reload]
      ∧ (loginForm_submit_response ok s).loginModal.display = "none")
    ∧ (logout_response out s).log = s.log ++ [.reload]
    ∧ ((pageReload s).log = s.log ++
          [ .call "fetchCurrentUser" [], .fetch "GET" "/api/user" [],
            .call "loadPosts" ["", ""], .fetch "GET" "/api/posts" [],
            .fetch "GET" "/api/categories" [] ]
        ∧ (pageReload s).currentUser = none
        ∧ (pageReload s).currentFilter = "" ∧ (pageReload s).currentFilterValue = "")
    ∧ ((registerForm_submit_response ok s).log
          = s.log ++ [.alert "Регистрация успешна! Теперь войдите в систему."]
        ∧ (registerForm_submit_response ok s).registerModal.display = "none"
        ∧ (registerForm_submit_response ok s).currentUser = s.currentUser
        ∧ (registerForm_submit_response ok s).currentFilter = s.currentFilter
        ∧ (registerForm_submit_response ok s).currentFilterValue = s.currentFilterValue
        ∧ (registerForm_submit_response ok s).postsContainer = s.postsContainer)
    ∧ ((loginForm_submit_response bad s).loginModal.display = s.loginModal.display
        ∧ (registerForm_submit_response bad s).registerModal.display
            = s.registerModal.display) := by
  refine ⟨?_, ?_, ?_, ?_, ?_⟩
  · simp only [loginForm_submit_response, hok, if_true]
    exact ⟨rfl, rfl⟩
  · simp only [logout_response, hout, if_true]
    rfl
  · refine ⟨?_, rfl, rfl, rfl⟩
    simp [pageReload, domContentLoaded, loadCategories, loadPosts, fetchCurrentUser, State.emit,
      State.initial]
    decide
  · simp only [registerForm_submit_response, hok, if_true]
    exact ⟨rfl, rfl, rfl, rfl, rfl, rfl⟩
  · simp only [loginForm_submit_response, registerForm_submit_response, hbad]
    exact ⟨rfl, rfl⟩

/-- C11, amended, at a `200` answer, a `200` answer to logout and a `401` answer,
on the freshly loaded page. -/
theorem auth_responses_witness :
    (okResponse ErrorJson.null).ok = true ∧ (okResponse ()).ok = true
    ∧ (Response.http 401 "Unauthorized" (.ok ErrorJson.null)).ok = false
    ∧ (loginForm_submit_response (okResponse .null) State.initial).log = [.reload]
    ∧ (logout_response (okResponse ()) State.initial).log = [.reload] :=
  ⟨rfl, rfl, rfl,
    (auth_responses (okResponse .null) (okResponse ())
      (.http 401 "Unauthorized" (.ok .null)) State.initial rfl rfl rfl).1.1,
    (auth_responses (okResponse .null) (okResponse ())
      (.http 401 "Unauthorized" (.ok .null)) State.initial rfl rfl rfl).2.1⟩


theorem idTruthy_iff (id : Option Nat) : idTruthy id = true ↔ ∃ n, id = some n ∧ n ≠ 0 := by
  cases id with
  | none => simp [idTruthy, Pid.ofArg, Pid.truthy]
  | some n => simp [idTruthy, Pid.ofArg, Pid.truthy]

/-- C12: whatever the outcome of `GET /api/user`, the promise chain of
`fetchCurrentUser` is fulfilled, never rejected, and the call itself only sends
the request.  Afterwards `currentUser` is the parsed object exactly when the body
was parsed to an object whose `id` is truthy (present and not `0`); it is `null`
after a transport failure, after a body that cannot be parsed, after an empty
body, and after an object with no `id` or with the `id` `0`. -/
theorem fetchCurrentUser_settles (r : Response (Option User)) (s : State) :
    fetchCurrentUser_promise r s = .ok (fetchCurrentUser_response r s)
    ∧ (fetchCurrentUser s).currentUser = s.currentUser
    ∧ (∀ user, (fetchCurrentUser_response r s).currentUser = some user ↔
        ∃ status statusText id,
          r = .http status statusText (.ok (some user)) ∧ user.id = some id ∧ id ≠ 0)
    ∧ (∀ message, r = .failed message → (fetchCurrentUser_response r s).currentUser = none)
    ∧ (∀ status statusText message, r = .http status statusText (.error message) →
        (fetchCurrentUser_response r s).currentUser = none)
    ∧ (∀ status statusText, r = .http status statusText (.ok none) →
        (fetchCurrentUser_response r s).currentUser = none)
    ∧ (∀ status statusText user, r = .http status statusText (.ok (some user)) →
        user.id = none ∨ user.id = some 0 →
        (fetchCurrentUser_response r s).currentUser = none) := by
  refine ⟨?_, rfl, ?_, ?_, ?_, ?_, ?_⟩
  · cases r with
    | failed message => rfl
    | http status statusText json =>
        cases json with
        | error message => rfl
        | ok body =>
            cases body with
            | none => rfl
            | some user =>
                cases hid : user.id with
                | none =>
                    simp [fetchCurrentUser_promise, userJson, Except.map, Except.tryCatch,
                      fetchCurrentUser_then, fetchCurrentUser_response, hid, idTruthy,
                      Pid.ofArg, Pid.truthy]
                | some n =>
                    by_cases hn : n = 0
                    · simp [fetchCurrentUser_promise, userJson, Except.map, Except.tryCatch,
                        fetchCurrentUser_then, fetchCurrentUser_response, hid, idTruthy,
                        Pid.ofArg, Pid.truthy, hn]
                    · simp [fetchCurrentUser_promise, userJson, Except.map, Except.tryCatch,
                        fetchCurrentUser_then, fetchCurrentUser_response, hid, idTruthy,
                        Pid.ofArg, Pid.truthy, hn]
  · intro user
    rw [fetchCurrentUser_response_currentUser]
    constructor
    · intro h
      split at h
      · next status statusText u =>
          by_cases ht : idTruthy u.id = true
          · rw [if_pos ht] at h
            cases h
            obtain ⟨n, hn, hne⟩ := (idTruthy_iff _).1 ht
            exact ⟨status, statusText, n, rfl, hn, hne⟩
          · rw [if_neg ht] at h
            cases h
      · cases h
    · rintro ⟨status, statusText, id, hr, hid, hne⟩
      subst hr
      have ht : idTruthy user.id = true := (idTruthy_iff _).2 ⟨id, hid, hne⟩
      simp [ht]
  · intro message hr
    subst hr
    rw [fetchCurrentUser_response_currentUser]
  · intro status statusText message hr
    subst hr
    rw [fetchCurrentUser_response_currentUser]
  · intro status statusText hr
    subst hr
    rw [fetchCurrentUser_response_currentUser]
  · intro status statusText user hr hid
    subst hr
    rw [fetchCurrentUser_response_currentUser]
    have ht : idTruthy user.id = false := by
      rcases hid with h | h <;> rw [h] <;> rfl
    simp [ht]

/-- C13: for every filter and value, when the list request is answered with a
`2xx` status and the body `[]`, the posts container holds exactly
`<p>Постов не найдено.</p>`: it is not empty, it holds no element of class
`post`, and its text holds no error notice. -/
theorem loadPosts_empty_placeholder (env : Env) (f v : String) (s : State)
    (status : Nat) (statusText : String) (hok : 200 ≤ status ∧ status ≤ 299) :
    innerHTML (loadPosts_response env (.http status statusText (.ok (some [])))
        (loadPosts f v s)).postsContainer = "<p>Постов не найдено.</p>"
    ∧ (loadPosts_response env (.http status statusText (.ok (some [])))
        (loadPosts f v s)).postsContainer ≠ []
    ∧ findIn (.byClass "post")
        (loadPosts_response env (.http status statusText (.ok (some [])))
          (loadPosts f v s)).postsContainer = none
    ∧ includes (innerHTML (loadPosts_response env (.http status statusText (.ok (some [])))
        (loadPosts f v s)).postsContainer) "Ошибка" = false
    ∧ (loadPosts_response env (.http status statusText (.ok (some [])))
        (loadPosts f v s)).currentFilter = f
    ∧ (loadPosts_response env (.http status statusText (.ok (some [])))
        (loadPosts f v s)).currentFilterValue = v := by
  have e : (loadPosts_response env (.http status statusText (.ok (some [])))
      (loadPosts f v s))
      = { loadPosts f v s with
          postsContainer := [.element "p" [] [.text "Постов не найдено."]] } := by
    simp [loadPosts_response, ok_http _ _ _ hok]
  have h1 : innerHTML [.element "p" [] [.text "Постов не найдено."]]
      = "<p>Постов не найдено.</p>" := by decide
  have h2 : includes (innerHTML [.element "p" [] [.text "Постов не найдено."]]) "Ошибка"
      = false := by decide
  rw [e]
  exact ⟨h1, by simp, rfl, h2, rfl, rfl⟩

/-- C13 at the first load of the page, answered `200` with `[]`. -/
theorem loadPosts_empty_placeholder_witness :
    (200 ≤ 200 ∧ 200 ≤ 299)
    ∧ innerHTML (loadPosts_response sampleEnv (.http 200 "OK" (.ok (some [])))
        (loadPosts "" "" State.initial)).postsContainer = "<p>Постов не найдено.</p>" :=
  ⟨by decide,
    (loadPosts_empty_placeholder sampleEnv "" "" State.initial 200 "OK" (by decide)).1⟩

end Forum
